import Mathlib

/-!
Shallow embedding of the mouse-reveal motion-sensing and indicator pipeline.

Rust `f64` values are modelled as real numbers, `i32`/`u32` as `ℤ`/`ℕ`, and
`std::time::Instant` as a real number of seconds.  Stateful code (the UI loop
body and the motion monitor's event handler) is embedded as explicit state
transformers taking the current wall-clock time as a parameter.
-/

open scoped Classical

namespace MouseReveal

/-- From src/models.rs, `struct Config`. -/
structure Config where
  capture_seconds : ℝ
  window_size : ℤ
  device_name : String
  decay : ℝ
  accel : ℝ
  accel_decay : ℝ
  accel_inc : ℝ
  threshold : ℝ

/-- From src/models.rs, `Config::new`. -/
def Config.new : Config where
  capture_seconds := 5
  window_size := 200
  decay := 0.98
  accel := 1500
  accel_decay := 0.1
  accel_inc := 0.3
  threshold := 1500
  device_name := "Apple"

/-- From src/models.rs, `struct VelocityEvent` (the `Instant` field is a time
in seconds). -/
structure VelocityEvent where
  velocity : ℝ
  time : ℝ

/-- From src/models.rs, `VelocityEvent::expired`:
`self.time.elapsed() > Duration::from_millis(250)`, with `elapsed()` written
as `now - self.time`. -/
def VelocityEvent.expired (e : VelocityEvent) (now : ℝ) : Prop :=
  now - e.time > 0.25

/-- From src/models.rs, `struct PointerInputEvent`. -/
structure PointerInputEvent where
  x : ℤ
  y : ℤ
  time : ℝ

/-- From src/models.rs, `PointerInputEvent::velocity`:
`delta = (self.time - previous.time).as_secs_f64()`,
`w = (self.x - previous.x) as f64 / delta`, `h` likewise for `y`, result
`(w * h).abs().sqrt()` (the `let` bindings are inlined here). -/
noncomputable def PointerInputEvent.velocity (self previous : PointerInputEvent) : ℝ :=
  Real.sqrt |(((self.x : ℝ) - (previous.x : ℝ)) / (self.time - previous.time)) *
    (((self.y : ℝ) - (previous.y : ℝ)) / (self.time - previous.time))|

/-- From src/main.rs, `update_avg`:
`weight_input = (velocity / config.accel).max(config.accel_decay).min(config.accel_inc)`,
`weight_state = 1.0 - weight_input`, result
`avg * weight_state * config.decay + velocity * weight_input`
(the `let` bindings are inlined). -/
noncomputable def update_avg (config : Config) (avg velocity : ℝ) : ℝ :=
  avg * (1 - min (max (velocity / config.accel) config.accel_decay) config.accel_inc)
      * config.decay
    + velocity * min (max (velocity / config.accel) config.accel_decay) config.accel_inc

/-- The spec-side clamp operation, `clamp(x, lo, hi)`. -/
noncomputable def clamp (x lo hi : ℝ) : ℝ := min (max x lo) hi

/-- The mutable locals of `start_ui_loop` in src/main.rs that the visibility
decision depends on: `avg_weighted`, `avg_ui`, and the window's
shown/hidden flag (`win.visible`). -/
structure UiState where
  avg_weighted : ℝ
  avg_ui : ℝ
  visible : Bool

/-- From src/main.rs, `start_ui_loop`: the staleness gate
`if velocity_event.expired() { 0.0 } else { velocity_event.velocity() }`. -/
noncomputable def gatedVelocity (e : VelocityEvent) (now : ℝ) : ℝ :=
  if e.expired now then 0 else e.velocity

/-- From src/main.rs, `start_ui_loop`: one iteration of the presentation
loop, restricted to the state the visibility decision and animation input
depend on.  The loop reads the shared cell, gates it by staleness, runs
`update_avg`, then tests `avg_ui > 50.0 || avg_weighted > config.threshold`;
in the shown branch it updates `avg_ui = avg_ui * 0.95 + avg_weighted * 0.05`
(the value handed to `animation.play`) and shows the window, in the other
branch it resets `avg_ui = 0.0` and hides the window. -/
noncomputable def uiTick (config : Config) (s : UiState) (e : VelocityEvent) (now : ℝ) :
    UiState :=
  if s.avg_ui > 50 ∨ update_avg config s.avg_weighted (gatedVelocity e now) > config.threshold
  then
    { avg_weighted := update_avg config s.avg_weighted (gatedVelocity e now)
      avg_ui := s.avg_ui * 0.95 + update_avg config s.avg_weighted (gatedVelocity e now) * 0.05
      visible := true }
  else
    { avg_weighted := update_avg config s.avg_weighted (gatedVelocity e now)
      avg_ui := 0
      visible := false }

/-- Iterated presentation-loop ticks over a sequence of read shared-cell
values paired with the read times. -/
noncomputable def uiRun (config : Config) (s : UiState) (evs : List (VelocityEvent × ℝ)) :
    UiState :=
  evs.foldl (fun st p => uiTick config st p.1 p.2) s

/-- The evdev event shapes distinguished by `MotionMonitor::handle_event`
in src/main.rs. -/
inductive InputEvent where
  | absSlot : InputEvent
  | absX : ℤ → InputEvent
  | absY : ℤ → InputEvent
  | sync : InputEvent
  | other : InputEvent

/-- The mutable state of `struct MotionMonitor` in src/main.rs relevant to
velocity estimation: the shared cell `last_speed`, the committed sample
`last`, the accumulator `working`, and `ignore_block`. -/
structure MotionMonitor where
  last_speed : VelocityEvent
  last : PointerInputEvent
  working : PointerInputEvent
  ignore_block : Bool

/-- From src/main.rs, `MotionMonitor::handle_event`.  On `ABS_MT_SLOT` it
sets `ignore_block`; on `ABS_X`/`ABS_Y` it overwrites one working axis
unless `ignore_block`; on a synchronization event (unless `ignore_block`,
which it then clears) it stamps `working.time = Instant::now()`, computes
`working.velocity(&last)`, assigns `last = working`, and, only when the
velocity is not `> 5000.0`, writes a fresh `VelocityEvent` into the shared
cell. -/
noncomputable def MotionMonitor.handle_event (m : MotionMonitor) (ev : InputEvent)
    (now : ℝ) : MotionMonitor :=
  match ev with
  | .absSlot => { m with ignore_block := true }
  | .absX v => if m.ignore_block then m else { m with working := { m.working with x := v } }
  | .absY v => if m.ignore_block then m else { m with working := { m.working with y := v } }
  | .sync =>
      if m.ignore_block then { m with ignore_block := false }
      else
        if PointerInputEvent.velocity { m.working with time := now } m.last > 5000 then
          { m with
              working := { m.working with time := now }
              last := { m.working with time := now } }
        else
          { m with
              working := { m.working with time := now }
              last := { m.working with time := now }
              last_speed :=
                { velocity := PointerInputEvent.velocity { m.working with time := now } m.last
                  time := now } }
  | .other => m

/-- From src/animations.rs, `xcb::x::Arc` as used by `circle`. -/
structure Arc where
  x : ℤ
  y : ℤ
  width : ℕ
  height : ℕ
  angle1 : ℤ
  angle2 : ℤ

/-- From src/animations.rs, `fn circle`: `x = y = max_size as i16 / 2 - size as i16 / 2`,
`width = height = size`, `angle1 = 0`, `angle2 = 360 << 6`. -/
def circle (max_size size : ℕ) : Arc where
  x := (max_size : ℤ) / 2 - (size : ℤ) / 2
  y := (max_size : ℤ) / 2 - (size : ℤ) / 2
  width := size
  height := size
  angle1 := 0
  angle2 := 360 * 64

/-- From src/animations.rs, `Animation::new`: the radius argument
`(((max_size - max_border) as f64) * ((s as f64) / 100.0)) as u32` of the
`s`-th frame (exact rational arithmetic stands in for `f64`; the `as u32`
cast truncates the non-negative product, i.e. takes its floor). -/
def frameSize (max_size max_border s : ℕ) : ℕ :=
  (((max_size - max_border : ℕ) : ℚ) * ((s : ℚ) / 100)).floor.toNat

/-- From src/animations.rs, `struct Animation`. -/
structure Animation where
  max_border : ℕ
  frames : List Arc

/-- From src/animations.rs, `Animation::new`: `max_border = max_size / 2 - 16`
and `frames = (0..100).map(|s| circle(max_size, ...)).collect()`. -/
def Animation.new (max_size : ℕ) : Animation where
  max_border := max_size / 2 - 16
  frames := (List.range 100).map (fun s => circle max_size (frameSize max_size (max_size / 2 - 16) s))

/-- From src/animations.rs, `Animation::play`: the frame selection
`((speed / 10.0).max(0.0) as usize).min(self.frames.len() - 1)` (the `as usize`
cast of a non-negative finite `f64` truncates, i.e. takes the floor). -/
noncomputable def Animation.frame_idx (a : Animation) (speed : ℝ) : ℕ :=
  min (Nat.floor (max (speed / 10) 0)) (a.frames.length - 1)

/-- From src/logging.rs, the possible outcomes of `CaptureEmitter::emit`:
return early without sending, send succesfully, or panic on
`send(event).unwrap()` when the receiving end has disconnected. -/
inductive SendOutcome where
  | dropped : SendOutcome
  | sent : SendOutcome
  | panicked : SendOutcome
deriving DecidableEq

/-- From src/logging.rs, `struct CaptureEmitter` (times in seconds; the
channel itself is modelled by the `connected` argument of `emit`). -/
structure CaptureEmitter where
  start : ℝ
  expires : ℝ

/-- From src/logging.rs, `CaptureEmitter::emit`:
`if self.start.elapsed() > self.expires { return; } self.emitter.send(event).unwrap()`.
`send` returns an error exactly when the receiver has disconnected, and
`unwrap` on that error panics the calling thread. -/
noncomputable def CaptureEmitter.emit (c : CaptureEmitter) (now : ℝ) (connected : Bool) :
    SendOutcome :=
  if now - c.start > c.expires then .dropped
  else if connected then .sent else .panicked

/-- The possible results of `receiver.recv_timeout` in `start_capture_thread`
(src/main.rs). -/
inductive RecvOutcome where
  | ok : RecvOutcome
  | timeout : RecvOutcome
  | disconnected : RecvOutcome
deriving DecidableEq

/-- Whether one iteration of the `start_capture_thread` loop (src/main.rs)
breaks out of the loop or keeps looping. -/
inductive LoopDecision where
  | stop : LoopDecision
  | proceed : LoopDecision
deriving DecidableEq

/-- From src/main.rs, `start_capture_thread`: one iteration of the logging
loop breaks when `start.elapsed() > Duration::from_secs(capture_seconds)`,
otherwise pushes a received event and continues on `Ok`, continues on
`Timeout`, and breaks on `Disconnected`. -/
noncomputable def capture_step (elapsed window : ℝ) (r : RecvOutcome) : LoopDecision :=
  if elapsed > window then .stop
  else
    match r with
    | .ok => .proceed
    | .timeout => .proceed
    | .disconnected => .stop

/- ------------------------------------------------------------------ -/
/- Theorems                                                            -/
/- ------------------------------------------------------------------ -/

/-- Claim C1: for sample pairs with positive `dt`, the raw speed is
`sqrt(|((cur.x - prev.x)/dt) * ((cur.y - prev.y)/dt)|)`; pure single-axis
motion (one axis delta zero) yields speed `0`; and the samples
`(0,0,t=0)`, `(100,100,t=0.1s)` yield speed `1000`. -/
theorem claim1_velocity_formula :
    (∀ prev cur : PointerInputEvent, 0 < cur.time - prev.time →
      cur.velocity prev =
        Real.sqrt |(((cur.x : ℝ) - (prev.x : ℝ)) / (cur.time - prev.time)) *
          (((cur.y : ℝ) - (prev.y : ℝ)) / (cur.time - prev.time))| ∧
      ((cur.x = prev.x ∨ cur.y = prev.y) → cur.velocity prev = 0)) ∧
    PointerInputEvent.velocity ⟨100, 100, 0.1⟩ ⟨0, 0, 0⟩ = 1000 := by
  constructor
  · intro prev cur _
    refine ⟨rfl, ?_⟩
    rintro (h | h) <;>
      simp [PointerInputEvent.velocity, h, sub_self, zero_div]
  · show Real.sqrt _ = _
    norm_num [PointerInputEvent.velocity]
    rw [show (1000000 : ℝ) = 1000 ^ 2 by norm_num,
      Real.sqrt_sq (by norm_num : (0:ℝ) ≤ 1000)]

/-- Claim C1 witness: the hypotheses of `claim1_velocity_formula` hold at the
concrete pair `(0,0,t=0)`, `(100,0,t=0.1s)`, where single-axis motion gives
speed `0`. -/
theorem claim1_witness :
    (0 : ℝ) < (0.1 : ℝ) - 0 ∧
      PointerInputEvent.velocity ⟨100, 0, 0.1⟩ ⟨0, 0, 0⟩ = 0 :=
  ⟨by norm_num,
    (claim1_velocity_formula.1 ⟨0, 0, 0⟩ ⟨100, 0, 0.1⟩ (by norm_num)).2 (Or.inr rfl)⟩

/-- Claim C3: one smoother update returns
`avg * (1 - weight) * decay + raw * weight` with
`weight = clamp(raw / accel, accel_decay_min, accel_inc_max)`, and the
configured `decay` constant is `< 1`. -/
theorem claim3_update_avg_formula :
    (∀ (config : Config) (avg raw : ℝ),
      update_avg config avg raw =
        avg * (1 - clamp (raw / config.accel) config.accel_decay config.accel_inc)
            * config.decay
          + raw * clamp (raw / config.accel) config.accel_decay config.accel_inc) ∧
    Config.new.decay < 1 := by
  refine ⟨fun config avg raw => rfl, ?_⟩
  norm_num [Config.new]

/-- Claim C10: with the default configuration, `update_avg` maps
`[0, 5000] × [0, 5000]` into `[0, 5000]`. -/
theorem claim10_update_avg_bounded (avg v : ℝ)
    (h0 : 0 ≤ avg) (h1 : avg ≤ 5000) (h2 : 0 ≤ v) (h3 : v ≤ 5000) :
    0 ≤ update_avg Config.new avg v ∧ update_avg Config.new avg v ≤ 5000 := by
  have hw1 : (0.1 : ℝ) ≤ min (max (v / Config.new.accel) Config.new.accel_decay)
      Config.new.accel_inc := by
    refine le_min ?_ ?_
    · exact le_trans (by norm_num [Config.new]) (le_max_right _ _)
    · norm_num [Config.new]
  have hw2 : min (max (v / Config.new.accel) Config.new.accel_decay)
      Config.new.accel_inc ≤ 0.3 := by
    simp [Config.new]
  set w := min (max (v / Config.new.accel) Config.new.accel_decay) Config.new.accel_inc
    with hw
  have hdec : Config.new.decay = (0.98 : ℝ) := by norm_num [Config.new]
  constructor
  · have : 0 ≤ avg * (1 - w) * Config.new.decay := by
      apply mul_nonneg (mul_nonneg h0 (by linarith)) (by rw [hdec]; norm_num)
    have : 0 ≤ v * w := mul_nonneg h2 (by linarith)
    unfold update_avg
    rw [← hw]
    nlinarith
  · unfold update_avg
    rw [← hw, hdec]
    nlinarith

/-- Claim C10 witness: the hypotheses of `claim10_update_avg_bounded` hold
at the concrete pair `avg = 1000`, `v = 2000`. -/
theorem claim10_witness :
    ((0 : ℝ) ≤ 1000 ∧ (1000 : ℝ) ≤ 5000 ∧ (0 : ℝ) ≤ 2000 ∧ (2000 : ℝ) ≤ 5000) ∧
    0 ≤ update_avg Config.new 1000 2000 ∧ update_avg Config.new 1000 2000 ≤ 5000 :=
  ⟨⟨by norm_num, by norm_num, by norm_num, by norm_num⟩,
    claim10_update_avg_bounded 1000 2000 (by norm_num) (by norm_num) (by norm_num)
      (by norm_num)⟩

/-- Helper: both branches of a UI tick store the freshly smoothed average. -/
theorem uiTick_avg_weighted (config : Config) (s : UiState) (e : VelocityEvent) (now : ℝ) :
    (uiTick config s e now).avg_weighted =
      update_avg config s.avg_weighted (gatedVelocity e now) := by
  unfold uiTick
  split <;> rfl

/-- Helper: a tick whose freshly smoothed average exceeds the threshold
leaves the window shown, whatever the previous state was. -/
theorem uiTick_visible_of_threshold_lt (config : Config) (s : UiState) (e : VelocityEvent)
    (now : ℝ)
    (h : config.threshold < update_avg config s.avg_weighted (gatedVelocity e now)) :
    (uiTick config s e now).visible = true := by
  unfold uiTick
  rw [if_pos (Or.inr h)]

/-- Helper: the shown branch of a UI tick and the `avg_ui` blend it performs. -/
theorem uiTick_shown (config : Config) (s : UiState) (e : VelocityEvent) (now : ℝ)
    (h : s.avg_ui > 50 ∨
      update_avg config s.avg_weighted (gatedVelocity e now) > config.threshold) :
    (uiTick config s e now).visible = true ∧
      (uiTick config s e now).avg_ui =
        s.avg_ui * 0.95 + update_avg config s.avg_weighted (gatedVelocity e now) * 0.05 := by
  unfold uiTick
  rw [if_pos h]
  exact ⟨rfl, rfl⟩

/-- Helper: the hidden branch of a UI tick resets `avg_ui`. -/
theorem uiTick_hidden (config : Config) (s : UiState) (e : VelocityEvent) (now : ℝ)
    (h : ¬ (s.avg_ui > 50 ∨
      update_avg config s.avg_weighted (gatedVelocity e now) > config.threshold)) :
    (uiTick config s e now).visible = false ∧ (uiTick config s e now).avg_ui = 0 := by
  unfold uiTick
  rw [if_neg h]
  exact ⟨rfl, rfl⟩

/-- Helper: a UI tick hides the window exactly when the old `avg_ui` is at
most `50` and the fresh smoothed average is at most the threshold. -/
theorem uiTick_hidden_iff (config : Config) (s : UiState) (e : VelocityEvent) (now : ℝ) :
    (uiTick config s e now).visible = false ↔
      s.avg_ui ≤ 50 ∧
        update_avg config s.avg_weighted (gatedVelocity e now) ≤ config.threshold := by
  by_cases h : s.avg_ui > 50 ∨
      update_avg config s.avg_weighted (gatedVelocity e now) > config.threshold
  · rw [(uiTick_shown config s e now h).1]
    constructor
    · intro hc; exact absurd hc (by simp)
    · rintro ⟨h1, h2⟩
      rcases h with h | h
      · exact absurd h (not_lt.mpr h1)
      · exact absurd h (not_lt.mpr h2)
  · rw [(uiTick_hidden config s e now h).1]
    push_neg at h
    simp only [true_iff]
    exact h

/-- Helper: `uiRun` over `take (i+1)` is a tick after `uiRun` over `take i`. -/
theorem uiRun_take_succ (config : Config) (s : UiState) (evs : List (VelocityEvent × ℝ))
    (i : ℕ) (hi : i < evs.length) :
    uiRun config s (evs.take (i + 1)) =
      uiTick config (uiRun config s (evs.take i)) (evs.get ⟨i, hi⟩).1 (evs.get ⟨i, hi⟩).2 := by
  unfold uiRun
  rw [List.take_succ, List.getElem?_eq_getElem hi, List.foldl_append]
  rfl

/-- Claim C2 counterexample: no exit threshold strictly above the entry
threshold governs the Shown-to-Hidden transition.  For any candidate `H`
above `show_threshold`, the state with `avg_ui = 100` stays shown even
though its fresh smoothed speed (`0`) is below `H`, so the transition is
not "speed falls below `H`". -/
theorem claim2_counterexample :
    ¬ ∃ H : ℝ, Config.new.threshold < H ∧
      ∀ (s : UiState) (e : VelocityEvent) (now : ℝ), s.visible = true →
        ((uiTick Config.new s e now).visible = false ↔
          update_avg Config.new s.avg_weighted (gatedVelocity e now) < H) := by
  rintro ⟨H, hH, hall⟩
  have hg : gatedVelocity ⟨0, 0⟩ (0 : ℝ) = 0 := by
    norm_num [gatedVelocity, VelocityEvent.expired]
  have hu : update_avg Config.new (0 : ℝ) (0 : ℝ) = 0 := by
    simp [update_avg]
  have hvis : (uiTick Config.new ⟨0, 100, true⟩ ⟨0, 0⟩ 0).visible = true :=
    (uiTick_shown Config.new ⟨0, 100, true⟩ ⟨0, 0⟩ 0 (Or.inl (by norm_num))).1
  have h := hall ⟨0, 100, true⟩ ⟨0, 0⟩ 0 rfl
  rw [hvis] at h
  have hlt : update_avg Config.new (UiState.avg_weighted ⟨0, 100, true⟩)
      (gatedVelocity ⟨0, 0⟩ 0) < H := by
    show update_avg Config.new 0 (gatedVelocity ⟨0, 0⟩ 0) < H
    rw [hg, hu]
    have h15 : (1500 : ℝ) < H := by
      have := hH
      norm_num [Config.new] at this
      exact this
    linarith
  have := h.mpr hlt
  simp at this

/-- Claim C2 (amended): the code has a single show threshold; hysteresis is
implemented through the secondary average `avg_ui`.  Once shown, for every
sequence of read cell values whose resulting smoothed speeds stay strictly
above `show_threshold` (in particular, strictly between `show_threshold`
and any higher bound), the window never transitions to hidden; and any
transition to hidden requires both the fresh smoothed speed to be at most
the (single) threshold and `avg_ui` to be at most `50`. -/
theorem claim2_hysteresis (config : Config) (s : UiState)
    (evs : List (VelocityEvent × ℝ)) (hs : s.visible = true)
    (hband : ∀ i, i < evs.length →
      config.threshold < (uiRun config s (evs.take (i + 1))).avg_weighted) :
    (∀ i, i ≤ evs.length → (uiRun config s (evs.take i)).visible = true) ∧
    (∀ (t : UiState) (e : VelocityEvent) (now : ℝ),
      (uiTick config t e now).visible = false →
        t.avg_ui ≤ 50 ∧
          update_avg config t.avg_weighted (gatedVelocity e now) ≤ config.threshold) := by
  constructor
  · intro i hi
    cases i with
    | zero => simpa [uiRun] using hs
    | succ n =>
        have hn : n < evs.length := by omega
        have hb := hband n hn
        rw [uiRun_take_succ config s evs n hn] at hb ⊢
        rw [uiTick_avg_weighted] at hb
        exact uiTick_visible_of_threshold_lt _ _ _ _ hb
  · intro t e now h
    exact (uiTick_hidden_iff config t e now).mp h

/-- Claim C2 witness: the hypotheses of `claim2_hysteresis` hold for the
shown state `avg_weighted = 1600`, `avg_ui = 100` fed one fresh cell value
of `1600` (smoothed result `1577.6`, strictly between `1500` and `1800`),
and the window stays shown. -/
theorem claim2_witness :
    ((⟨1600, 100, true⟩ : UiState).visible = true ∧
      Config.new.threshold <
        (uiRun Config.new ⟨1600, 100, true⟩
          ([((⟨1600, 0⟩ : VelocityEvent), (0 : ℝ))].take 1)).avg_weighted) ∧
    (uiRun Config.new ⟨1600, 100, true⟩
      ([((⟨1600, 0⟩ : VelocityEvent), (0 : ℝ))].take 1)).visible = true := by
  have hband : ∀ i (hi : i < ([((⟨1600, 0⟩ : VelocityEvent), (0 : ℝ))] : List _).length),
      Config.new.threshold <
        (uiRun Config.new ⟨1600, 100, true⟩
          ([((⟨1600, 0⟩ : VelocityEvent), (0 : ℝ))].take (i + 1))).avg_weighted := by
    intro i hi
    have hi0 : i = 0 := by simpa using hi
    subst hi0
    show Config.new.threshold <
      (uiTick Config.new ⟨1600, 100, true⟩ ⟨1600, 0⟩ 0).avg_weighted
    rw [uiTick_avg_weighted]
    have hg : gatedVelocity ⟨1600, 0⟩ (0 : ℝ) = 1600 := by
      norm_num [gatedVelocity, VelocityEvent.expired]
    show Config.new.threshold < update_avg Config.new 1600 (gatedVelocity ⟨1600, 0⟩ 0)
    rw [hg]
    unfold update_avg
    simp only [Config.new]
    rw [max_eq_left (by norm_num), min_eq_right (by norm_num)]
    norm_num
  exact ⟨⟨rfl, hband 0 (by norm_num)⟩,
    (claim2_hysteresis Config.new ⟨1600, 100, true⟩
      [((⟨1600, 0⟩ : VelocityEvent), (0 : ℝ))] rfl hband).1 1 (by norm_num)⟩

/-- Claim C4 counterexample: at a shown tick with `avg_weighted = 0`,
`avg_ui = 100` and a fresh cell value of `0`, the value handed to
`animation.play` is the blended `avg_ui = 95`, not
`max(0, speed - threshold) = 0`. -/
theorem claim4_counterexample :
    (uiTick Config.new ⟨0, 100, true⟩ ⟨0, 0⟩ 0).visible = true ∧
    (uiTick Config.new ⟨0, 100, true⟩ ⟨0, 0⟩ 0).avg_ui ≠
      max 0 ((uiTick Config.new ⟨0, 100, true⟩ ⟨0, 0⟩ 0).avg_weighted -
        Config.new.threshold) := by
  have hg : gatedVelocity ⟨0, 0⟩ (0 : ℝ) = 0 := by
    norm_num [gatedVelocity, VelocityEvent.expired]
  have hu : update_avg Config.new (0 : ℝ) (0 : ℝ) = 0 := by simp [update_avg]
  obtain ⟨hv, hui⟩ := uiTick_shown Config.new ⟨0, 100, true⟩ ⟨0, 0⟩ 0 (Or.inl (by norm_num))
  have hw := uiTick_avg_weighted Config.new ⟨0, 100, true⟩ ⟨0, 0⟩ 0
  refine ⟨hv, ?_⟩
  rw [hui, hw]
  show (100 : ℝ) * 0.95 + update_avg Config.new 0 (gatedVelocity ⟨0, 0⟩ 0) * 0.05 ≠
    max 0 (update_avg Config.new 0 (gatedVelocity ⟨0, 0⟩ 0) - Config.new.threshold)
  rw [hg, hu, show (0 : ℝ) - Config.new.threshold = -1500 by norm_num [Config.new],
    max_eq_left (by norm_num : (-1500 : ℝ) ≤ 0)]
  norm_num

/-- Claim C4 (amended): the magnitude handed to the animation mapper is the
secondary average `avg_ui`: at a shown tick it becomes
`avg_ui * 0.95 + avg_weighted * 0.05` (with `avg_weighted` the fresh
smoothed speed), and at a hidden tick it is reset to `0`. -/
theorem claim4_mapper_input (config : Config) (s : UiState) (e : VelocityEvent) (now : ℝ) :
    ((s.avg_ui > 50 ∨
        update_avg config s.avg_weighted (gatedVelocity e now) > config.threshold) →
      (uiTick config s e now).avg_ui =
        s.avg_ui * 0.95 + update_avg config s.avg_weighted (gatedVelocity e now) * 0.05) ∧
    (¬ (s.avg_ui > 50 ∨
        update_avg config s.avg_weighted (gatedVelocity e now) > config.threshold) →
      (uiTick config s e now).avg_ui = 0) :=
  ⟨fun h => (uiTick_shown config s e now h).2, fun h => (uiTick_hidden config s e now h).2⟩

/-- Claim C4 witness: the shown-branch hypothesis of `claim4_mapper_input`
holds at the state with `avg_ui = 100`, and the mapper input there is the
`avg_ui` blend. -/
theorem claim4_witness :
    ((⟨0, 100, true⟩ : UiState).avg_ui > 50 ∨
      update_avg Config.new (⟨0, 100, true⟩ : UiState).avg_weighted
        (gatedVelocity ⟨0, 0⟩ 0) > Config.new.threshold) ∧
    (uiTick Config.new ⟨0, 100, true⟩ ⟨0, 0⟩ 0).avg_ui =
      (⟨0, 100, true⟩ : UiState).avg_ui * 0.95 +
        update_avg Config.new (⟨0, 100, true⟩ : UiState).avg_weighted
          (gatedVelocity ⟨0, 0⟩ 0) * 0.05 :=
  ⟨Or.inl (by norm_num),
    (claim4_mapper_input Config.new ⟨0, 100, true⟩ ⟨0, 0⟩ 0).1 (Or.inl (by norm_num))⟩

/-- Claim C7 counterexample: at a tick whose stored velocity observation is
expired (`now - time = 1s > 250ms`), the speeds the visibility decision and
the animation mapper actually consume are the smoothed averages `1764` and
`183.2`, not `0`: the indicator stays shown. -/
theorem claim7_counterexample :
    VelocityEvent.expired ⟨3000, 0⟩ 1 ∧
    (uiTick Config.new ⟨2000, 100, true⟩ ⟨3000, 0⟩ 1).visible = true ∧
    (uiTick Config.new ⟨2000, 100, true⟩ ⟨3000, 0⟩ 1).avg_ui ≠ 0 ∧
    (uiTick Config.new ⟨2000, 100, true⟩ ⟨3000, 0⟩ 1).avg_weighted ≠ 0 := by
  have hexp : VelocityEvent.expired ⟨3000, 0⟩ (1 : ℝ) := by
    norm_num [VelocityEvent.expired]
  have hg : gatedVelocity ⟨3000, 0⟩ (1 : ℝ) = 0 := by simp [gatedVelocity, hexp]
  have hu : update_avg Config.new (2000 : ℝ) (0 : ℝ) = 1764 := by
    unfold update_avg
    simp only [Config.new]
    rw [show (0 : ℝ) / 1500 = 0 by norm_num,
      max_eq_right (by norm_num : (0 : ℝ) ≤ 0.1),
      min_eq_left (by norm_num : (0.1 : ℝ) ≤ 0.3)]
    norm_num
  obtain ⟨hv, hui⟩ :=
    uiTick_shown Config.new ⟨2000, 100, true⟩ ⟨3000, 0⟩ 1 (Or.inl (by norm_num))
  have hw := uiTick_avg_weighted Config.new ⟨2000, 100, true⟩ ⟨3000, 0⟩ 1
  refine ⟨hexp, hv, ?_, ?_⟩
  · rw [hui]
    show (100 : ℝ) * 0.95 + update_avg Config.new 2000 (gatedVelocity ⟨3000, 0⟩ 1) * 0.05 ≠ 0
    rw [hg, hu]
    norm_num
  · rw [hw]
    show update_avg Config.new 2000 (gatedVelocity ⟨3000, 0⟩ 1) ≠ 0
    rw [hg, hu]
    norm_num

/-- Claim C7 (amended): when the stored velocity observation is older than
the 250 ms staleness window, the tick substitutes `0` for the stored raw
velocity, so the tick result is independent of the stored velocity value;
the gate itself mutates neither the stored average nor the shared cell
(the downstream averages merely decay through `update_avg` with input `0`,
they are not forced to `0`). -/
theorem claim7_staleness (config : Config) (s : UiState) (e eA : VelocityEvent) (now : ℝ)
    (h : e.expired now) (hA : eA.expired now) :
    gatedVelocity e now = 0 ∧ uiTick config s e now = uiTick config s eA now := by
  have h1 : gatedVelocity e now = 0 := by simp [gatedVelocity, h]
  have h2 : gatedVelocity eA now = 0 := by simp [gatedVelocity, hA]
  refine ⟨h1, ?_⟩
  unfold uiTick
  rw [h1, h2]

/-- Claim C7 witness: the hypotheses of `claim7_staleness` hold for two
expired observations with different stored velocities (`3000` and `7`) read
at the same tick, which produce identical tick results. -/
theorem claim7_witness :
    VelocityEvent.expired ⟨3000, 0⟩ 1 ∧ VelocityEvent.expired ⟨7, 0⟩ 1 ∧
    gatedVelocity ⟨3000, 0⟩ 1 = 0 ∧
    uiTick Config.new ⟨2000, 100, true⟩ ⟨3000, 0⟩ 1 =
      uiTick Config.new ⟨2000, 100, true⟩ ⟨7, 0⟩ 1 := by
  have h1 : VelocityEvent.expired ⟨3000, 0⟩ (1 : ℝ) := by norm_num [VelocityEvent.expired]
  have h2 : VelocityEvent.expired ⟨7, 0⟩ (1 : ℝ) := by norm_num [VelocityEvent.expired]
  obtain ⟨hg, heq⟩ :=
    claim7_staleness Config.new ⟨2000, 100, true⟩ ⟨3000, 0⟩ ⟨7, 0⟩ 1 h1 h2
  exact ⟨h1, h2, hg, heq⟩

/-- Helper: the sync branch of `handle_event` when the computed velocity is
not an outlier: the working sample is stamped, `last` is overwritten, and a
fresh velocity event is written to the shared cell. -/
theorem handle_event_sync_not_outlier (m : MotionMonitor) (now : ℝ)
    (hig : m.ignore_block = false)
    (hv : ¬ PointerInputEvent.velocity ⟨m.working.x, m.working.y, now⟩ m.last > 5000) :
    m.handle_event .sync now =
      { m with
          working := ⟨m.working.x, m.working.y, now⟩
          last := ⟨m.working.x, m.working.y, now⟩
          last_speed :=
            ⟨PointerInputEvent.velocity ⟨m.working.x, m.working.y, now⟩ m.last, now⟩ } := by
  unfold MotionMonitor.handle_event
  simp only [hig, Bool.false_eq_true, if_false, if_neg hv]

/-- Helper: the sync branch of `handle_event` when the computed velocity
exceeds `5000`: the working sample is stamped and `last` is overwritten, but
the shared cell is left untouched. -/
theorem handle_event_sync_outlier (m : MotionMonitor) (now : ℝ)
    (hig : m.ignore_block = false)
    (hv : PointerInputEvent.velocity ⟨m.working.x, m.working.y, now⟩ m.last > 5000) :
    m.handle_event .sync now =
      { m with
          working := ⟨m.working.x, m.working.y, now⟩
          last := ⟨m.working.x, m.working.y, now⟩ } := by
  unfold MotionMonitor.handle_event
  simp only [hig, Bool.false_eq_true, if_false, if_pos hv]

/-- Claim C5 counterexample: a degenerate pair (`dt = 5 - 5 = 0`) is not
skipped: the sync handler still publishes a fresh velocity event into the
shared cell (the stored event changes), contrary to "returns nothing, no
downstream propagation". -/
theorem claim5_counterexample :
    (5 : ℝ) - 5 ≤ 0 ∧
    (MotionMonitor.handle_event ⟨⟨42, 0⟩, ⟨0, 0, 5⟩, ⟨0, 0, 0⟩, false⟩ .sync 5).last_speed
      ≠ (⟨42, 0⟩ : VelocityEvent) := by
  have hv : PointerInputEvent.velocity ⟨0, 0, 5⟩ ⟨0, 0, 5⟩ = 0 := by
    simp [PointerInputEvent.velocity]
  have hstep := handle_event_sync_not_outlier ⟨⟨42, 0⟩, ⟨0, 0, 5⟩, ⟨0, 0, 0⟩, false⟩ 5 rfl
    (by show ¬ PointerInputEvent.velocity ⟨0, 0, 5⟩ ⟨0, 0, 5⟩ > 5000; rw [hv]; norm_num)
  rw [hstep]
  refine ⟨by norm_num, ?_⟩
  intro h
  have ht := congrArg VelocityEvent.time h
  norm_num at ht

/-- Claim C5 (amended): the raw speed is non-negative for every sample pair
(degenerate or not), but the code has no `dt <= 0` guard: the sync handler
computes the velocity unconditionally and, whenever the outlier ceiling does
not reject it, publishes it downstream. -/
theorem claim5_no_degenerate_guard :
    (∀ self previous : PointerInputEvent, 0 ≤ self.velocity previous) ∧
    (∀ (m : MotionMonitor) (now : ℝ), m.ignore_block = false →
      ¬ PointerInputEvent.velocity ⟨m.working.x, m.working.y, now⟩ m.last > 5000 →
      (m.handle_event .sync now).last_speed =
        ⟨PointerInputEvent.velocity ⟨m.working.x, m.working.y, now⟩ m.last, now⟩) := by
  refine ⟨fun self previous => Real.sqrt_nonneg _, fun m now hig hv => ?_⟩
  rw [handle_event_sync_not_outlier m now hig hv]

/-- Claim C5 witness: the hypotheses of `claim5_no_degenerate_guard` hold at
a concrete degenerate sync (`dt = 0`), where a velocity event is still
published. -/
theorem claim5_witness :
    (⟨⟨42, 0⟩, ⟨0, 0, 5⟩, ⟨0, 0, 0⟩, false⟩ : MotionMonitor).ignore_block = false ∧
    ¬ PointerInputEvent.velocity ⟨0, 0, 5⟩ ⟨0, 0, 5⟩ > 5000 ∧
    (MotionMonitor.handle_event ⟨⟨42, 0⟩, ⟨0, 0, 5⟩, ⟨0, 0, 0⟩, false⟩ .sync 5).last_speed =
      ⟨PointerInputEvent.velocity ⟨0, 0, 5⟩ ⟨0, 0, 5⟩, 5⟩ := by
  have hv : PointerInputEvent.velocity ⟨0, 0, 5⟩ ⟨0, 0, 5⟩ = 0 := by
    simp [PointerInputEvent.velocity]
  have hnv : ¬ PointerInputEvent.velocity ⟨0, 0, 5⟩ ⟨0, 0, 5⟩ > 5000 := by
    rw [hv]; norm_num
  exact ⟨rfl, hnv,
    claim5_no_degenerate_guard.2 ⟨⟨42, 0⟩, ⟨0, 0, 5⟩, ⟨0, 0, 0⟩, false⟩ 5 rfl hnv⟩

/-- Claim C6 counterexample: for the raw speed `6000 > 5000` the shared cell
is indeed left unchanged, but the stored previous sample `last` IS updated
to the current sample — `self.last = self.working` runs before the outlier
check — contrary to "the stored previous sample (prev) is not updated". -/
theorem claim6_counterexample :
    PointerInputEvent.velocity ⟨6000, 6000, 1⟩ ⟨0, 0, 0⟩ = 6000 ∧
    (6000 : ℝ) > 5000 ∧
    (MotionMonitor.handle_event ⟨⟨42, 0⟩, ⟨0, 0, 0⟩, ⟨6000, 6000, 0⟩, false⟩ .sync 1).last_speed
      = ⟨42, 0⟩ ∧
    (MotionMonitor.handle_event ⟨⟨42, 0⟩, ⟨0, 0, 0⟩, ⟨6000, 6000, 0⟩, false⟩ .sync 1).last
      ≠ (⟨0, 0, 0⟩ : PointerInputEvent) := by
  have hv : PointerInputEvent.velocity ⟨6000, 6000, 1⟩ ⟨0, 0, 0⟩ = 6000 := by
    show Real.sqrt _ = _
    norm_num [PointerInputEvent.velocity]
    rw [show (36000000 : ℝ) = 6000 ^ 2 by norm_num,
      Real.sqrt_sq (by norm_num : (0 : ℝ) ≤ 6000)]
  have hgt : PointerInputEvent.velocity ⟨6000, 6000, 1⟩ ⟨0, 0, 0⟩ > 5000 := by
    rw [hv]; norm_num
  have hstep := handle_event_sync_outlier ⟨⟨42, 0⟩, ⟨0, 0, 0⟩, ⟨6000, 6000, 0⟩, false⟩ 1 rfl hgt
  rw [hstep]
  refine ⟨hv, by norm_num, rfl, ?_⟩
  intro h
  have hx := congrArg PointerInputEvent.x h
  norm_num at hx

/-- Claim C6 (amended): a raw speed exceeding the `5000` ceiling is not fed
into the smoother — the shared cell, hence the smoothed average, is
unchanged — but the stored previous sample `last` IS updated to the current
sample before the check. -/
theorem claim6_outlier (m : MotionMonitor) (now : ℝ)
    (hig : m.ignore_block = false)
    (hv : PointerInputEvent.velocity ⟨m.working.x, m.working.y, now⟩ m.last > 5000) :
    (m.handle_event .sync now).last_speed = m.last_speed ∧
    (m.handle_event .sync now).last = ⟨m.working.x, m.working.y, now⟩ := by
  rw [handle_event_sync_outlier m now hig hv]
  exact ⟨rfl, rfl⟩

/-- Claim C6 witness: the hypotheses of `claim6_outlier` hold at the
concrete raw speed `6000`, and the cell keeps its prior value `42` while
`last` takes the new sample. -/
theorem claim6_witness :
    (⟨⟨42, 0⟩, ⟨0, 0, 0⟩, ⟨6000, 6000, 0⟩, false⟩ : MotionMonitor).ignore_block = false ∧
    PointerInputEvent.velocity ⟨6000, 6000, 1⟩ ⟨0, 0, 0⟩ > 5000 ∧
    (MotionMonitor.handle_event ⟨⟨42, 0⟩, ⟨0, 0, 0⟩, ⟨6000, 6000, 0⟩, false⟩ .sync 1).last_speed
      = ⟨42, 0⟩ ∧
    (MotionMonitor.handle_event ⟨⟨42, 0⟩, ⟨0, 0, 0⟩, ⟨6000, 6000, 0⟩, false⟩ .sync 1).last
      = ⟨6000, 6000, 1⟩ := by
  have hv : PointerInputEvent.velocity ⟨6000, 6000, 1⟩ ⟨0, 0, 0⟩ = 6000 := by
    show Real.sqrt _ = _
    norm_num [PointerInputEvent.velocity]
    rw [show (36000000 : ℝ) = 6000 ^ 2 by norm_num,
      Real.sqrt_sq (by norm_num : (0 : ℝ) ≤ 6000)]
  have hgt : PointerInputEvent.velocity ⟨6000, 6000, 1⟩ ⟨0, 0, 0⟩ > 5000 := by
    rw [hv]; norm_num
  obtain ⟨h1, h2⟩ := claim6_outlier ⟨⟨42, 0⟩, ⟨0, 0, 0⟩, ⟨6000, 6000, 0⟩, false⟩ 1 rfl hgt
  exact ⟨rfl, hgt, h1, h2⟩

/-- Helper: `Animation::new` precomputes exactly `100` frames. -/
theorem animation_new_frames_length (max_size : ℕ) :
    (Animation.new max_size).frames.length = 100 := by
  simp [Animation.new]

/-- Helper: the `i`-th precomputed frame is the circle of the `i`-th frame
size. -/
theorem animation_new_frames_getElem (max_size i : ℕ)
    (hi : i < (Animation.new max_size).frames.length) :
    (Animation.new max_size).frames[i] =
      circle max_size (frameSize max_size (max_size / 2 - 16) i) := by
  simp [Animation.new]

/-- Helper: `Rat.floor` agrees with the floor of the `FloorRing` instance. -/
theorem rat_floor_eq_intFloor (q : ℚ) : q.floor = ⌊q⌋ := by
  rw [Rat.floor_def, Rat.floor_def']

/-- Helper: for the default `max_size = 200` (so `max_border = 84`), the
frame sizes `floor(116 * s / 100)` grow strictly with the frame number. -/
theorem frameSize_strictMono : StrictMono (frameSize 200 84) := by
  apply strictMono_nat_of_lt_succ
  intro s
  unfold frameSize
  simp only [rat_floor_eq_intFloor]
  rw [show ((200 - 84 : ℕ) : ℚ) = 116 by norm_num,
    show ((s + 1 : ℕ) : ℚ) = (s : ℚ) + 1 by push_cast; ring]
  have h1 : (116 : ℚ) * ((s : ℚ) / 100) + 1 ≤ 116 * (((s : ℚ) + 1) / 100) := by
    have hexp : (116 : ℚ) * (((s : ℚ) + 1) / 100) = 116 * ((s : ℚ) / 100) + 116 / 100 := by
      ring
    rw [hexp]
    norm_num
  have h2 : ⌊(116 : ℚ) * ((s : ℚ) / 100)⌋ + 1 ≤ ⌊(116 : ℚ) * (((s : ℚ) + 1) / 100)⌋ := by
    have := Int.floor_le_floor h1
    rwa [Int.floor_add_one] at this
  have h0 : (0 : ℤ) ≤ ⌊(116 : ℚ) * ((s : ℚ) / 100)⌋ := Int.floor_nonneg.mpr (by positivity)
  omega

/-- Claim C8: the frame index is `clamp(floor(speed / 10), 0, 99)` over the
`100` precomputed frames; it always lies in `[0, 99]`, is non-decreasing in
the speed, and the frames have strictly increasing diameter. -/
theorem claim8_frame_index :
    (∀ speed : ℝ, (Animation.new 200).frame_idx speed =
      (min (max (⌊speed / 10⌋ : ℤ) 0) 99).toNat) ∧
    (∀ speed : ℝ, (Animation.new 200).frame_idx speed ≤ 99) ∧
    (∀ s t : ℝ, s ≤ t →
      (Animation.new 200).frame_idx s ≤ (Animation.new 200).frame_idx t) ∧
    (Animation.new 200).frames.length = 100 ∧
    (∀ i j : ℕ, ∀ hi : i < (Animation.new 200).frames.length,
      ∀ hj : j < (Animation.new 200).frames.length, i < j →
      ((Animation.new 200).frames[i]).width < ((Animation.new 200).frames[j]).width) := by
  refine ⟨?_, ?_, ?_, animation_new_frames_length 200, ?_⟩
  · intro speed
    unfold Animation.frame_idx
    rw [animation_new_frames_length]
    rcases le_or_lt 0 (speed / 10) with h | h
    · rw [max_eq_left h]
      have hf : Nat.floor (speed / 10) = (⌊speed / 10⌋).toNat := (Int.floor_toNat _).symm
      have h0 : (0 : ℤ) ≤ ⌊speed / 10⌋ := Int.floor_nonneg.mpr h
      rw [hf]
      omega
    · rw [max_eq_right h.le]
      have hle : ⌊speed / 10⌋ ≤ 0 := Int.floor_nonpos h.le
      rw [Nat.floor_zero]
      omega
  · intro speed
    unfold Animation.frame_idx
    rw [animation_new_frames_length]
    omega
  · intro s t hst
    unfold Animation.frame_idx
    have hmax : max (s / 10) 0 ≤ max (t / 10) 0 :=
      max_le_max (by linarith) le_rfl
    exact min_le_min (Nat.floor_le_floor hmax) le_rfl
  · intro i j hi hj hij
    rw [animation_new_frames_getElem 200 i hi, animation_new_frames_getElem 200 j hj]
    show frameSize 200 84 i < frameSize 200 84 j
    exact frameSize_strictMono hij

/-- Claim C8 witness: the hypotheses of `claim8_frame_index` hold at the
concrete speeds `0 ≤ 15` and the concrete frame numbers `0 < 99`. -/
theorem claim8_witness :
    ((0 : ℝ) ≤ 15 ∧
      (Animation.new 200).frame_idx 0 ≤ (Animation.new 200).frame_idx 15) ∧
    ((0 : ℕ) < 99 ∧
      ((Animation.new 200).frames.get
          ⟨0, by rw [animation_new_frames_length]; norm_num⟩).width <
        ((Animation.new 200).frames.get
          ⟨99, by rw [animation_new_frames_length]; norm_num⟩).width) :=
  ⟨⟨by norm_num, claim8_frame_index.2.2.1 0 15 (by norm_num)⟩,
    ⟨by norm_num, claim8_frame_index.2.2.2.2 0 99
      (by rw [animation_new_frames_length]; norm_num)
      (by rw [animation_new_frames_length]; norm_num) (by norm_num)⟩⟩

/-- Claim C9 counterexample: an emit offered inside the capture window
(`elapsed = 4.9s`, window `5s`) after the receiving end has disconnected
panics the calling (sensing or presentation) thread via
`send(event).unwrap()` — contrary to "never blocks or crashes". -/
theorem claim9_counterexample :
    CaptureEmitter.emit ⟨0, 5⟩ 4.9 false = SendOutcome.panicked := by
  unfold CaptureEmitter.emit
  rw [if_neg (by norm_num : ¬ ((4.9 : ℝ) - 0 > 5))]
  rfl

/-- Claim C9 (amended): an event offered after the capture window has
elapsed is dropped without sending; the logging loop stops as soon as its
window expires or its channel disconnects; but an emit inside the window
after the channel has disconnected panics the calling task, so the
non-crashing guarantee does not hold. -/
theorem claim9_logging_lifecycle :
    (∀ (c : CaptureEmitter) (now : ℝ) (connected : Bool),
      now - c.start > c.expires → c.emit now connected = .dropped) ∧
    (∀ (elapsed window : ℝ) (r : RecvOutcome),
      elapsed > window ∨ r = .disconnected → capture_step elapsed window r = .stop) ∧
    (∀ (c : CaptureEmitter) (now : ℝ),
      ¬ now - c.start > c.expires → c.emit now false = .panicked) := by
  refine ⟨fun c now connected h => ?_, fun elapsed window r h => ?_, fun c now h => ?_⟩
  · unfold CaptureEmitter.emit
    rw [if_pos h]
  · unfold capture_step
    rcases h with h | h
    · rw [if_pos h]
    · subst h
      split
      · rfl
      · rfl
  · unfold CaptureEmitter.emit
    rw [if_neg h]
    rfl

/-- Claim C9 witness: the hypotheses of `claim9_logging_lifecycle` hold at
concrete times: an emit at `6s` past a `5s` window is dropped, the loop
stops on disconnect, and an emit at `4s` with a disconnected channel
panics. -/
theorem claim9_witness :
    ((6 : ℝ) - 0 > 5 ∧ CaptureEmitter.emit ⟨0, 5⟩ 6 true = SendOutcome.dropped) ∧
    (((1 : ℝ) > 5 ∨ RecvOutcome.disconnected = RecvOutcome.disconnected) ∧
      capture_step 1 5 RecvOutcome.disconnected = LoopDecision.stop) ∧
    (¬ ((4 : ℝ) - 0 > 5) ∧ CaptureEmitter.emit ⟨0, 5⟩ 4 false = SendOutcome.panicked) :=
  ⟨⟨by norm_num, claim9_logging_lifecycle.1 ⟨0, 5⟩ 6 true (by norm_num)⟩,
    ⟨Or.inr rfl, claim9_logging_lifecycle.2.1 1 5 RecvOutcome.disconnected (Or.inr rfl)⟩,
    ⟨by norm_num, claim9_logging_lifecycle.2.2 ⟨0, 5⟩ 4 (by norm_num)⟩⟩

end MouseReveal
